import Mathlib

/-!
Shallow embedding of the anomaly-scoring core of the ChainTrack ML service
(`src/ml_service/main.py`).  Numbers are modelled as rationals; the loaded
model artifact is an optional dictionary-like record; the one source of
nondeterminism (the `random.random()` degraded-mode substitute in the
learned-pipeline branch) is threaded as an explicit `rand` argument.
-/

namespace MlService

/-- Clipping to `[0,1]`, modelling `np.clip(v, 0.0, 1.0)`. -/
def clip01 (v : ℚ) : ℚ := max 0 (min v 1)

/-- Round-half-to-even applied to a rational, the integer part of Python's
`round`: ties (fractional part exactly 1/2) go to the even neighbour. -/
def rnd (y : ℚ) : ℤ :=
  if y - Rat.floor y < 1/2 then Rat.floor y
  else if 1/2 < y - Rat.floor y then Rat.floor y + 1
  else if Rat.floor y % 2 = 0 then Rat.floor y else Rat.floor y + 1

/-- Python's `round(q, 4)`: round to 4 decimal places, ties to even. -/
def round4 (q : ℚ) : ℚ := (rnd (q * 10000) : ℚ) / 10000

/-- The inbound feature record (`TxFeatures` in `main.py`).  The identifier
fields `txHash`, `from_addr`, `to` are accepted but unused by the scoring
core, so only the seven numeric fields are modelled; each is optional. -/
structure TxFeatures where
  valueUSD : Option ℚ := none
  relativeValue : Option ℚ := none
  timeDelta : Option ℚ := none
  txCount24h : Option ℚ := none
  gasUsed : Option ℚ := none
  gasPriceGwei : Option ℚ := none
  isNewCounterparty : Option ℚ := none

/-- The vectorization loop of `anomaly`: the seven numeric fields in the
fixed `feature_order`, each missing (`None`) value filled with `0.0`. -/
def vectorize (f : TxFeatures) : List ℚ :=
  [f.valueUSD.getD 0, f.relativeValue.getD 0, f.timeDelta.getD 0,
   f.txCount24h.getD 0, f.gasUsed.getD 0, f.gasPriceGwei.getD 0,
   f.isNewCounterparty.getD 0]

/-- The opaque scikit-learn part of a pickled artifact: `transform` models
`pipeline.transform` (`none` = raises, in which case the code falls back to
the untransformed vector) and `decision` models `clf.decision_function`
(`none` = raises, in which case the code substitutes `random.random()`). -/
structure Pipeline where
  transform : List ℚ → Option (List ℚ)
  decision : List ℚ → Option ℚ

/-- A loaded `MODEL` dictionary: each key the dispatch logic probes is an
optional field (`'pipeline' in MODEL`, `MODEL.get('score_min')`, …). -/
structure Artifact where
  pipeline : Option Pipeline := none
  score_min : Option ℚ := none
  score_max : Option ℚ := none
  type : Option String := none
  coefs : Option (List ℚ) := none
  intercept : Option ℚ := none

/-- A JSON value appearing as the tier-specific extra entry of a response. -/
inductive JsonVal where
  | bool (b : Bool)
  | str (s : String)
deriving DecidableEq

/-- The JSON body returned by the `/ml/anomaly` endpoint: `score`, `label`,
and at most one tier-specific extra key-value pair. -/
structure ScoreResult where
  score : ℚ
  label : String
  extra : Option (String × JsonVal)
deriving DecidableEq

/-- Labeling, `label = 'suspicious' if score > 0.85 else 'normal'`, the same
constant threshold in all three tiers (lines 87, 109 and 133). -/
def scoreLabel (score : ℚ) : String :=
  if score > 0.85 then "suspicious" else "normal"

/-- The common response tail of every branch: round the already-computed
score to 4 decimals, label it (from the unrounded score, as the code does),
and attach the branch's tier-specific extra entry. -/
def mkResult (score : ℚ) (extra : Option (String × JsonVal)) : ScoreResult :=
  { score := round4 score, label := scoreLabel score, extra := extra }

/-- Score normalization shared by the pipeline and linear branches:
`(raw - smin)/(smax - smin)` when the range is positive, else `clip(raw)`;
always followed by the final clip to `[0,1]`. -/
def normalizeScore (raw smin smax : ℚ) : ℚ :=
  clip01 (if smax - smin > 0 then (raw - smin) / (smax - smin) else clip01 raw)

/-- Raw magnitude of the learned-pipeline branch: transform (falling back to
the raw vector on failure), then `-decision_function`, substituting the
process's random draw when the magnitude computation fails. -/
def pipelineRaw (p : Pipeline) (x : List ℚ) (rand : ℚ) : ℚ :=
  match p.decision ((p.transform x).getD x) with
  | some d => -d
  | none => rand

/-- Unrounded score of the learned-pipeline branch (lines 62-86). -/
def pipelineScore (p : Pipeline) (smin smax : ℚ) (x : List ℚ) (rand : ℚ) : ℚ :=
  normalizeScore (pipelineRaw p x rand) smin smax

/-- Response of the learned-pipeline branch: no tier-specific extra key
(line 88 returns only `score` and `label`). -/
def pipelineResult (p : Pipeline) (smin smax : ℚ) (x : List ℚ) (rand : ℚ) :
    ScoreResult :=
  mkResult (pipelineScore p smin smax x rand) none

/-- Coefficient alignment of the linear branch (lines 97-100): right-pad
with zeros when shorter than the feature vector, truncate when longer. -/
def alignCoefs (coefs : List ℚ) (n : Nat) : List ℚ :=
  if coefs.length < n then coefs ++ List.replicate (n - coefs.length) 0
  else if n < coefs.length then coefs.take n
  else coefs

/-- Dot product, modelling `np.dot` (pairing truncates at the shorter list). -/
def dot (xs ys : List ℚ) : ℚ := (List.zipWith (· * ·) xs ys).sum

/-- Raw value of the linear branch: `dot(x, alignedCoefs) + intercept`,
with `coefs` defaulting to `[]` and `intercept` to `0.0` (lines 92-101). -/
def linearRaw (a : Artifact) (x : List ℚ) : ℚ :=
  dot x (alignCoefs (a.coefs.getD []) x.length) + a.intercept.getD 0

/-- Unrounded score of the linear branch: `score_min` defaults to `0.0`,
`score_max` to `max(1.0, raw)` (lines 102-108). -/
def linearScore (a : Artifact) (x : List ℚ) : ℚ :=
  normalizeScore (linearRaw a x) (a.score_min.getD 0)
    (a.score_max.getD (max 1 (linearRaw a x)))

/-- Response of the linear branch: extra key `'model'` with the string value
`'precomputed_linear'` (line 110). -/
def linearResult (a : Artifact) (x : List ℚ) : ScoreResult :=
  mkResult (linearScore a x) (some ("model", JsonVal.str "precomputed_linear"))

/-- Reference medians of the heuristic tier (line 117). -/
def medians : List ℚ := [200.0, 1.0, 3600.0, 2.0, 50000.0, 30.0, 0.1]

/-- Reference standard deviations of the heuristic tier (line 118). -/
def stds : List ℚ := [500.0, 2.0, 3600.0, 2.0, 20000.0, 10.0, 0.3]

/-- Per-feature weights of the heuristic tier (line 119). -/
def weights : List ℚ := [1.0, 1.0, 0.5, 0.3, 0.5, 0.5, 0.8]

/-- The accumulation loop of the heuristic branch (lines 120-128): over
`zip(Xv, medians, stds, weights)` accumulate `zsum += |x-m|/s * w` (the
z-term is `0` when `s ≤ 0`) and `norm += 3.0 * w`. -/
def heuristicSums : List ℚ → List ℚ → List ℚ → List ℚ → ℚ × ℚ
  | xi :: xs, m :: ms, s :: ss, w :: ws =>
    let rest := heuristicSums xs ms ss ws
    ((if s ≤ 0 then 0 else |xi - m| / s) * w + rest.1, 3.0 * w + rest.2)
  | _, _, _, _ => (0, 0)

/-- Unrounded score of the heuristic branch (lines 129-132): `0.0` when the
accumulated cap is non-positive, else `clip(zsum / norm, 0, 1)`. -/
def heuristicScore (x : List ℚ) : ℚ :=
  if (heuristicSums x medians stds weights).2 ≤ 0 then 0
  else clip01 ((heuristicSums x medians stds weights).1 /
    (heuristicSums x medians stds weights).2)

/-- Response of the heuristic branch: extra key `'fallback': true`. -/
def heuristicResult (x : List ℚ) : ScoreResult :=
  mkResult (heuristicScore x) (some ("fallback", JsonVal.bool true))

/-- The `/ml/anomaly` endpoint: vectorize, then dispatch on the loaded
artifact — learned pipeline when the `pipeline`, `score_min` and `score_max`
keys are all present (line 62), else linear when `type == 'linear'`
(line 91), else the heuristic fallback.  `rand` is the value `random.random()`
would produce if the degraded-mode path were taken. -/
def anomaly (model : Option Artifact) (features : TxFeatures) (rand : ℚ) :
    ScoreResult :=
  let x := vectorize features
  match model with
  | none => heuristicResult x
  | some a =>
    match a.pipeline, a.score_min, a.score_max with
    | some p, some smin, some smax => pipelineResult p smin smax x rand
    | _, _, _ =>
      if a.type = some "linear" then linearResult a x
      else heuristicResult x

/-- The health endpoint response (`root`, lines 151-153). -/
structure HealthResponse where
  status : String
  model_loaded : Bool
deriving DecidableEq

/-- Health endpoint: `model_loaded` is literally `MODEL is not None`
(line 153). -/
def root (model : Option Artifact) : HealthResponse :=
  { status := "ml_service prototype running", model_loaded := model.isSome }

/-- Which of the three tiers serves a request, mirroring the dispatch
conditions of `anomaly` (it depends only on the loaded artifact). -/
inductive Tier where
  | model
  | precomputed_linear
  | fallback
deriving DecidableEq

/-- The tier selected for a given loaded artifact. -/
def servedTier (model : Option Artifact) : Tier :=
  match model with
  | none => .fallback
  | some a =>
    match a.pipeline, a.score_min, a.score_max with
    | some _, some _, some _ => .model
    | _, _, _ =>
      if a.type = some "linear" then .precomputed_linear else .fallback

/-- The unrounded clipped score a request is served with, before the final
`round(score, 4)`; the branch structure mirrors `anomaly`. -/
def rawScore (model : Option Artifact) (features : TxFeatures) (rand : ℚ) : ℚ :=
  let x := vectorize features
  match model with
  | none => heuristicScore x
  | some a =>
    match a.pipeline, a.score_min, a.score_max with
    | some p, some smin, some smax => pipelineScore p smin smax x rand
    | _, _, _ =>
      if a.type = some "linear" then linearScore a x
      else heuristicScore x

/-- The tier-specific extra entry each tier actually attaches: the learned
pipeline attaches nothing, the linear tier attaches `'model':
'precomputed_linear'`, the heuristic tier attaches `'fallback': true`. -/
def tierExtra : Tier → Option (String × JsonVal)
  | .model => none
  | .precomputed_linear => some ("model", JsonVal.str "precomputed_linear")
  | .fallback => some ("fallback", JsonVal.bool true)

/-- A request with no numeric field present. -/
def emptyFeatures : TxFeatures := {}

/-- A request with every field at its heuristic reference median except
`valueUSD`, which is `v`; `featAtValue 200` is the all-median record. -/
def featAtValue (v : ℚ) : TxFeatures :=
  { valueUSD := some v, relativeValue := some 1.0, timeDelta := some 3600.0,
    txCount24h := some 2.0, gasUsed := some 50000.0, gasPriceGwei := some 30.0,
    isNewCounterparty := some 0.1 }

/-- A loaded pickled-pipeline artifact whose transform is the identity and
whose decision function returns `0` everywhere. -/
def pipeArtifact : Artifact :=
  { pipeline := some { transform := fun v => some v, decision := fun _ => some 0 },
    score_min := some 0, score_max := some 1 }

/-- A loaded precomputed linear artifact
`{type:'linear', coefs:[1,0,0,0,0,0,0], intercept:0, score_min:0, score_max:1000}`. -/
def linArtifact : Artifact :=
  { type := some "linear", coefs := some [1, 0, 0, 0, 0, 0, 0],
    intercept := some 0, score_min := some 0, score_max := some 1000 }

/-- A successfully parsed artifact file that matches neither usable variant:
a JSON document `{"type": "other"}` loads fine (so `MODEL` is not `None`)
but has no pipeline and is not of linear type. -/
def junkArtifact : Artifact := { type := some "other" }

theorem ratFloor_eq_floor (q : ℚ) : Rat.floor q = ⌊q⌋ := by
  rw [Rat.floor_def', Rat.floor_def]

theorem clip01_nonneg (v : ℚ) : 0 ≤ clip01 v := le_max_left _ _

theorem clip01_le_one (v : ℚ) : clip01 v ≤ 1 :=
  max_le (by norm_num) (min_le_right v 1)

theorem clip01_mono {a b : ℚ} (h : a ≤ b) : clip01 a ≤ clip01 b :=
  max_le_max le_rfl (min_le_min h le_rfl)

theorem clip01_of_mem {v : ℚ} (h0 : 0 ≤ v) (h1 : v ≤ 1) : clip01 v = v := by
  unfold clip01
  rw [min_eq_left h1, max_eq_right h0]

theorem clip01_zero : clip01 0 = 0 := clip01_of_mem le_rfl (by norm_num)

theorem floor_le_rnd (y : ℚ) : ⌊y⌋ ≤ rnd y := by
  unfold rnd
  rw [ratFloor_eq_floor]
  split_ifs <;> omega

theorem rnd_le_floor_add_one (y : ℚ) : rnd y ≤ ⌊y⌋ + 1 := by
  unfold rnd
  rw [ratFloor_eq_floor]
  split_ifs <;> omega

theorem rnd_mono {x y : ℚ} (h : x ≤ y) : rnd x ≤ rnd y := by
  have hf : ⌊x⌋ ≤ ⌊y⌋ := Int.floor_le_floor h
  rcases lt_or_eq_of_le hf with hlt | heq
  · have h1 := rnd_le_floor_add_one x
    have h2 := floor_le_rnd y
    omega
  · unfold rnd
    rw [ratFloor_eq_floor, ratFloor_eq_floor, ← heq]
    have hxy : x - (⌊x⌋ : ℚ) ≤ y - (⌊x⌋ : ℚ) := by linarith
    split_ifs <;> first | omega | linarith

theorem rnd_eq_of_lt_half {y : ℚ} {n : ℤ} (h1 : (n : ℚ) ≤ y)
    (h2 : y < (n : ℚ) + 1/2) : rnd y = n := by
  have hfl : ⌊y⌋ = n := Int.floor_eq_iff.mpr ⟨h1, by linarith⟩
  unfold rnd
  rw [ratFloor_eq_floor, hfl]
  rw [if_pos (by linarith)]

theorem rnd_intCast (n : ℤ) : rnd ((n : ℚ)) = n :=
  rnd_eq_of_lt_half le_rfl (by norm_num)

theorem round4_mono {a b : ℚ} (h : a ≤ b) : round4 a ≤ round4 b := by
  unfold round4
  have hm : rnd (a * 10000) ≤ rnd (b * 10000) :=
    rnd_mono (mul_le_mul_of_nonneg_right h (by norm_num))
  have hc : ((rnd (a * 10000) : ℤ) : ℚ) ≤ ((rnd (b * 10000) : ℤ) : ℚ) := by
    exact_mod_cast hm
  linarith

theorem round4_eq_of_lt_half {q : ℚ} {n : ℤ} (h1 : (n : ℚ) ≤ q * 10000)
    (h2 : q * 10000 < (n : ℚ) + 1/2) : round4 q = (n : ℚ) / 10000 := by
  unfold round4
  rw [rnd_eq_of_lt_half h1 h2]

theorem round4_intCast_div (n : ℤ) : round4 ((n : ℚ) / 10000) = (n : ℚ) / 10000 := by
  unfold round4
  rw [div_mul_cancel₀ _ (by norm_num : (10000 : ℚ) ≠ 0), rnd_intCast]

theorem round4_zero : round4 0 = 0 := by
  have h := round4_intCast_div 0
  norm_num at h
  exact h

theorem round4_one : round4 1 = 1 := by
  have h := round4_intCast_div 10000
  norm_num at h
  exact h

theorem round4_clip01_nonneg (s : ℚ) : 0 ≤ round4 (clip01 s) := by
  have h := round4_mono (clip01_nonneg s)
  rwa [round4_zero] at h

theorem round4_clip01_le_one (s : ℚ) : round4 (clip01 s) ≤ 1 := by
  have h := round4_mono (clip01_le_one s)
  rwa [round4_one] at h

theorem scoreLabel_eq_suspicious_iff (s : ℚ) :
    scoreLabel s = "suspicious" ↔ 0.85 < s := by
  unfold scoreLabel
  split_ifs with h
  · simpa using h
  · simp
    exact not_lt.mp h

theorem anomaly_eq (m : Option Artifact) (f : TxFeatures) (r : ℚ) :
    anomaly m f r = mkResult (rawScore m f r) (tierExtra (servedTier m)) := by
  rcases m with _ | a
  · rfl
  · rcases hp : a.pipeline with _ | p <;>
      rcases hmin : a.score_min with _ | smin <;>
      rcases hmax : a.score_max with _ | smax <;>
      simp only [anomaly, rawScore, servedTier, tierExtra, hp, hmin, hmax,
        pipelineResult, linearResult, heuristicResult] <;>
      split_ifs <;> rfl

theorem heuristicScore_featAtValue (v : ℚ) :
    heuristicScore (vectorize (featAtValue v)) = clip01 (|v - 200| / 6900) := by
  simp only [heuristicScore, vectorize, featAtValue, heuristicSums, medians,
    stds, weights, Option.getD_some]
  norm_num
  congr 1
  ring

theorem exists_clip_ite {c : Prop} [Decidable c] {a b : ℚ}
    (ha : ∃ s, a = clip01 s) (hb : ∃ s, b = clip01 s) :
    ∃ s, (if c then a else b) = clip01 s := by
  split_ifs
  · exact ha
  · exact hb

theorem heuristicScore_shape (x : List ℚ) : ∃ s, heuristicScore x = clip01 s := by
  unfold heuristicScore
  exact exists_clip_ite ⟨0, clip01_zero.symm⟩ ⟨_, rfl⟩

theorem rawScore_shape (m : Option Artifact) (f : TxFeatures) (r : ℚ) :
    ∃ s, rawScore m f r = clip01 s := by
  rcases m with _ | a
  · exact heuristicScore_shape _
  · rcases hp : a.pipeline with _ | p <;>
      rcases hmin : a.score_min with _ | smin <;>
      rcases hmax : a.score_max with _ | smax <;>
      simp only [rawScore, hp, hmin, hmax] <;>
      first
        | exact exists_clip_ite ⟨_, rfl⟩ (heuristicScore_shape _)
        | exact ⟨_, rfl⟩

theorem scoreLabel_zero : scoreLabel 0 = "normal" := by
  unfold scoreLabel
  rw [if_neg (by norm_num)]

/-- Claim C1 (counterexample): the claimed tier keys are wrong for two of the
three strategies.  A request served by the learned-pipeline strategy returns
no extra key at all (line 88 of `main.py` returns only `score` and `label`),
and a request served by the linear strategy returns the key `model` with the
string value `precomputed_linear`, not a key `precomputed_linear` with value
`true` (line 110). -/
theorem C1_counterexample :
    (anomaly (some pipeArtifact) emptyFeatures 0).extra = none ∧
    (anomaly (some linArtifact) emptyFeatures 0).extra =
      some ("model", JsonVal.str "precomputed_linear") := by
  rw [anomaly_eq, anomaly_eq]
  exact ⟨rfl, rfl⟩

/-- Claim C1 (amended): the extra entry of a response is a function of the
strategy that served it — the learned-pipeline tier attaches no extra key,
the linear tier attaches `'model': 'precomputed_linear'`, and the heuristic
tier attaches `'fallback': true`. -/
theorem C1_extra_mirrors_tier (m : Option Artifact) (f : TxFeatures) (r : ℚ) :
    (anomaly m f r).extra = tierExtra (servedTier m) := by
  rw [anomaly_eq]
  rfl


/-- Claim C2: under every strategy the returned score lies in `[0,1]` and is
the 4-decimal rounding of a value clipped to `[0,1]`. -/
theorem C2_score_unit_interval (m : Option Artifact) (f : TxFeatures) (r : ℚ) :
    0 ≤ (anomaly m f r).score ∧ (anomaly m f r).score ≤ 1 ∧
    ∃ s, (anomaly m f r).score = round4 (clip01 s) := by
  obtain ⟨s, hs⟩ := rawScore_shape m f r
  rw [anomaly_eq]
  simp only [mkResult]
  rw [hs]
  exact ⟨round4_clip01_nonneg s, round4_clip01_le_one s, s, rfl⟩

/-- Claim C3 (counterexample): the label is computed from the unrounded
score, so `label` and the *returned* (rounded) score can disagree at the
threshold.  With all features at their medians except `valueUSD = 6065.138`,
the heuristic clipped score is `0.85002 > 0.85`, giving label
`"suspicious"`, while the returned score rounds down to `0.85`, which is not
greater than `0.85`. -/
theorem C3_counterexample :
    (anomaly none (featAtValue 6065.138) 0).label = "suspicious" ∧
    ¬ 0.85 < (anomaly none (featAtValue 6065.138) 0).score := by
  have hraw : rawScore none (featAtValue 6065.138) 0 = 0.85002 := by
    show heuristicScore (vectorize (featAtValue 6065.138)) = 0.85002
    rw [heuristicScore_featAtValue]
    rw [abs_of_nonneg (by norm_num : (0:ℚ) ≤ 6065.138 - 200)]
    rw [clip01_of_mem (by norm_num) (by norm_num)]
    norm_num
  rw [anomaly_eq]
  simp only [mkResult]
  rw [hraw]
  constructor
  · rw [scoreLabel_eq_suspicious_iff]
    norm_num
  · rw [@round4_eq_of_lt_half (0.85002 : ℚ) 8500 (by norm_num) (by norm_num)]
    norm_num

/-- Claim C3 (amended): in every tier the label is `"suspicious"` iff the
*unrounded* clipped score exceeds the shared threshold constant `0.85`, and
the returned score is that same value rounded to 4 decimals — so a response
whose unrounded score lies in `(0.85, 0.85005)` carries the label
`"suspicious"` together with a reported score of exactly `0.85`. -/
theorem C3_label_iff_unrounded (m : Option Artifact) (f : TxFeatures) (r : ℚ) :
    ((anomaly m f r).label = "suspicious" ↔ 0.85 < rawScore m f r) ∧
    (anomaly m f r).score = round4 (rawScore m f r) := by
  rw [anomaly_eq]
  exact ⟨scoreLabel_eq_suspicious_iff _, rfl⟩

/-- Claim C4 (counterexample): `model_loaded` is literally `MODEL is not
None` (line 153), not "a usable artifact was loaded".  A successfully parsed
artifact `{"type": "other"}` matches neither the pipeline variant nor the
linear variant — every request it receives is served by the heuristic tier
with the `fallback` tag — yet the health endpoint reports
`model_loaded: true`. -/
theorem C4_counterexample :
    (root (some junkArtifact)).model_loaded = true ∧
    servedTier (some junkArtifact) = Tier.fallback ∧
    (anomaly (some junkArtifact) emptyFeatures 0).extra =
      some ("fallback", JsonVal.bool true) := by
  refine ⟨rfl, rfl, ?_⟩
  rw [anomaly_eq]
  rfl

/-- Claim C4 (amended): `model_loaded` is true iff *any* artifact object was
loaded (`MODEL is not None`), usable or not; in the Absent case it is false
and every scoring request is served by the heuristic tier with the
`fallback` tag. -/
theorem C4_model_loaded (m : Option Artifact) (f : TxFeatures) (r : ℚ) :
    (root m).model_loaded = m.isSome ∧
    (root none).model_loaded = false ∧
    servedTier none = Tier.fallback ∧
    (anomaly none f r).extra = some ("fallback", JsonVal.bool true) := by
  refine ⟨rfl, rfl, rfl, ?_⟩
  rw [anomaly_eq]
  rfl

/-- Claim C5: under the heuristic strategy, the record with every feature at
its reference median scores exactly `0.0` with label `"normal"` and the
`fallback` tier tag. -/
theorem C5_median_input :
    anomaly none (featAtValue 200) 0 =
      { score := 0, label := "normal",
        extra := some ("fallback", JsonVal.bool true) } := by
  have hraw : rawScore none (featAtValue 200) 0 = 0 := by
    show heuristicScore (vectorize (featAtValue 200)) = 0
    rw [heuristicScore_featAtValue]
    norm_num [clip01_zero]
  rw [anomaly_eq, hraw]
  unfold mkResult
  rw [round4_zero, scoreLabel_zero]
  rfl

/-- Claim C6: the linear strategy aligns the coefficient list to the
7-element feature vector deterministically and totally — right-padding with
zeros when shorter, truncating to the first 7 entries when longer; the
aligned list always has length 7, so the dot product is always defined and
a length mismatch never produces an error. -/
theorem C6_alignment (coefs x : List ℚ) (h : x.length = 7) :
    (alignCoefs coefs x.length).length = 7 ∧
    (coefs.length < 7 →
      alignCoefs coefs x.length = coefs ++ List.replicate (7 - coefs.length) 0) ∧
    (7 < coefs.length → alignCoefs coefs x.length = coefs.take 7) := by
  rw [h]
  unfold alignCoefs
  refine ⟨?_, ?_, ?_⟩
  · split_ifs with h1 h2
    · simp only [List.length_append, List.length_replicate]
      omega
    · simp only [List.length_take]
      omega
    · omega
  · intro hlt
    rw [if_pos hlt]
  · intro hgt
    rw [if_neg (by omega), if_pos hgt]

/-- Witness for C6 at the spec's own example: `coefs = [2,3]` against a
7-element vector pads to `[2,3,0,0,0,0,0]`. -/
theorem C6_alignment_witness :
    alignCoefs [2, 3] (([0, 0, 0, 0, 0, 0, 0] : List ℚ).length) =
      [2, 3, 0, 0, 0, 0, 0] := by
  have h := (C6_alignment [2, 3] [0, 0, 0, 0, 0, 0, 0] rfl).2.1 (by norm_num)
  rw [h]
  rfl

/-- Claim C7: under the heuristic strategy, with all other features at their
medians, the returned score is monotone in `valueUSD` above the median
`200`. -/
theorem C7_monotone (v w : ℚ) (hv : 200 ≤ v) (hvw : v ≤ w) :
    (anomaly none (featAtValue v) 0).score ≤
      (anomaly none (featAtValue w) 0).score := by
  rw [anomaly_eq, anomaly_eq]
  simp only [mkResult]
  apply round4_mono
  show heuristicScore (vectorize (featAtValue v)) ≤
    heuristicScore (vectorize (featAtValue w))
  rw [heuristicScore_featAtValue, heuristicScore_featAtValue]
  apply clip01_mono
  rw [abs_of_nonneg (by linarith), abs_of_nonneg (by linarith)]
  linarith

/-- Witness for C7 at `valueUSD = 300 ≤ 400`. -/
theorem C7_monotone_witness :
    (anomaly none (featAtValue 300) 0).score ≤
      (anomaly none (featAtValue 400) 0).score :=
  C7_monotone 300 400 (by norm_num) (by norm_num)

/-- Claim C8: for a fixed loaded artifact and fixed input, scoring does not
depend on the process's random draw — provided the degraded-mode path is not
taken, i.e. the pipeline's magnitude computation succeeds whenever a
pipeline is present (linear and heuristic requests never consult the draw at
all). -/
theorem C8_deterministic (a : Artifact) (f : TxFeatures) (r1 r2 : ℚ)
    (h : ∀ p, a.pipeline = some p →
      (p.decision ((p.transform (vectorize f)).getD (vectorize f))).isSome = true) :
    anomaly (some a) f r1 = anomaly (some a) f r2 := by
  rcases hp : a.pipeline with _ | p
  · rcases hmin : a.score_min with _ | smin <;>
      rcases hmax : a.score_max with _ | smax <;>
      simp only [anomaly, hp, hmin, hmax]
  · obtain ⟨d, hd⟩ := Option.isSome_iff_exists.mp (h p hp)
    rcases hmin : a.score_min with _ | smin <;>
      rcases hmax : a.score_max with _ | smax <;>
      simp only [anomaly, hp, hmin, hmax, pipelineResult, pipelineScore,
        pipelineRaw, hd]

/-- Witness for C8 with the loaded linear artifact (no pipeline present, so
the degraded-mode hypothesis is vacuous) and two different random draws. -/
theorem C8_deterministic_witness :
    anomaly (some linArtifact) emptyFeatures 1 =
      anomaly (some linArtifact) emptyFeatures 2 :=
  C8_deterministic linArtifact emptyFeatures 1 2 (fun _ hp => nomatch hp)

/-- Claim C9: the vectorizer totally maps any feature record to a vector of
exactly 7 numbers, in the fixed order `valueUSD, relativeValue, timeDelta,
txCount24h, gasUsed, gasPriceGwei, isNewCounterparty`, with every absent
field defaulted to `0.0`. -/
theorem C9_vectorize (f : TxFeatures) :
    (vectorize f).length = 7 ∧
    (vectorize f)[0]? = some (f.valueUSD.getD 0) ∧
    (vectorize f)[1]? = some (f.relativeValue.getD 0) ∧
    (vectorize f)[2]? = some (f.timeDelta.getD 0) ∧
    (vectorize f)[3]? = some (f.txCount24h.getD 0) ∧
    (vectorize f)[4]? = some (f.gasUsed.getD 0) ∧
    (vectorize f)[5]? = some (f.gasPriceGwei.getD 0) ∧
    (vectorize f)[6]? = some (f.isNewCounterparty.getD 0) :=
  ⟨rfl, rfl, rfl, rfl, rfl, rfl, rfl, rfl⟩

/-- Claim C10: for every 7-element feature vector the accumulated cap of the
heuristic strategy is the constant `3.0 * 4.6 = 13.8 > 0`, so the guard
branch that would return score `0.0` on a non-positive cap is unreachable
and the heuristic score always equals `clip(weightedSum / 13.8, 0, 1)`. -/
theorem C10_cap (x : List ℚ) (h : x.length = 7) :
    (heuristicSums x medians stds weights).2 = 13.8 ∧
    heuristicScore x =
      clip01 ((heuristicSums x medians stds weights).1 / 13.8) := by
  rcases x with _ | ⟨a, _ | ⟨b, _ | ⟨c, _ | ⟨d, _ | ⟨e, _ | ⟨g, _ | ⟨i, rest⟩⟩⟩⟩⟩⟩⟩ <;>
    try simp at h
  rcases rest with _ | ⟨j, t⟩
  · have h2 : (heuristicSums [a, b, c, d, e, g, i] medians stds weights).2 = 13.8 := by
      simp only [heuristicSums, medians, stds, weights]
      norm_num
    refine ⟨h2, ?_⟩
    unfold heuristicScore
    rw [h2, if_neg (by norm_num)]
  · simp at h

/-- Witness for C10 at the all-zero feature vector. -/
theorem C10_cap_witness :
    (heuristicSums [0, 0, 0, 0, 0, 0, 0] medians stds weights).2 = 13.8 ∧
    heuristicScore [0, 0, 0, 0, 0, 0, 0] =
      clip01 ((heuristicSums [0, 0, 0, 0, 0, 0, 0] medians stds weights).1 / 13.8) :=
  C10_cap [0, 0, 0, 0, 0, 0, 0] rfl

end MlService
